import Mathlib

/-!
# Verification of the daily paper-ingestion pipeline

A shallow embedding, in Lean 4, of the ingestion pipeline of the
`hellomimir` backend (`app/services/paper_service.py`,
`app/services/arxiv_service.py`, `app/services/llm_service.py`,
`app/db/supabase_client.py`, `app/db/models.py`), together with theorems
settling the behavioural claims about it.

Modelling conventions:
* UUIDs are modelled as `Nat`, timestamps (`datetime`) as `Int`.
* The database is an explicit `Store` value; every mutating store
  operation also prepends a `WriteOp` tag to an audit field
  `Store.writes`, so that frame properties ("performs zero writes",
  "never persists full text") are expressible.
* External effects (the arXiv feed, PDF extraction, the three LLM
  operations) are modelled by an `Env` record holding the outcome each
  external call would produce during the run; a Python exception is an
  `Except.error` carrying the exception message.
* The `try/except` blocks of the supabase client's existence checks are
  modelled by an explicit `queryFails : Bool` argument: `true` means the
  underlying query raises, in which case the Python code returns `False`.
* Python exceptions that escape to the `except Exception` handler of
  `ingest_paper_for_field` are modelled by the body returning
  `Except.error msg` together with the store as mutated so far (Python
  writes committed before the exception persist).
-/

namespace HelloMimir

/-- Reading levels of a summary (`ReadingLevel` in `models.py`). -/
inductive ReadingLevel where
  | grade5
  | middle
  | high
deriving DecidableEq, Repr

/-- Difficulty levels of pre-reading material (`DifficultyLevel` in `models.py`). -/
inductive DifficultyLevel where
  | beginner
  | intermediate
  | advanced
  | expert
deriving DecidableEq, Repr

/-- A field/category for academic papers (`AcademicField` in `models.py`);
only the attributes the pipeline reads are modelled. -/
structure AcademicField where
  id : Nat
  slug : String
  name : String
  arxiv_query : String
deriving DecidableEq, Repr

/-- A paper parsed from the arXiv feed (`ArxivPaper` in `models.py`). -/
structure ArxivPaper where
  arxiv_id : String
  title : String
  abstract : String
  authors : List String
  categories : List String
  published_at : Int
  pdf_url : String
deriving DecidableEq, Repr

/-- A durable paper row (`Paper` in `models.py`; the `papers` table). -/
structure Paper where
  id : Nat
  arxiv_id : String
  title : String
  abstract : String
  full_text : Option String
  authors_json : List String
  categories : List String
  pdf_url : String
  published_at : Int
deriving DecidableEq, Repr

/-- A daily paper assignment row (`DailyPaper` in `models.py`;
the `daily_papers` table, unique per (field, date)). -/
structure DailyPaper where
  date : String
  field_id : Nat
  paper_id : Nat
deriving DecidableEq, Repr

/-- One row of the `paper_summaries` table, keyed by (paper, field, level). -/
structure SummaryRow where
  paper_id : Nat
  field_id : Nat
  level : ReadingLevel
  summary_text : String
deriving DecidableEq, Repr

/-- A single quiz question (`QuizQuestion` in `models.py`). -/
structure QuizQuestion where
  question : String
  options : List String
  correct_index : Int
  explanation : String
deriving DecidableEq, Repr

/-- A complete quiz (`QuizData` in `models.py`). -/
structure QuizData where
  questions : List QuizQuestion
deriving DecidableEq, Repr

/-- One row of the `paper_quizzes` table, keyed by (paper, field). -/
structure QuizRow where
  paper_id : Nat
  field_id : Nat
  quiz_json : QuizData
deriving DecidableEq, Repr

/-- A technical term with definition (`JargonEntry` in `models.py`). -/
structure JargonEntry where
  term : String
  definition : String
  example_usage : Option String
deriving DecidableEq, Repr

/-- A prerequisite concept (`PrerequisiteEntry` in `models.py`). -/
structure PrerequisiteEntry where
  concept : String
  why_needed : String
  resources : Option (List String)
deriving DecidableEq, Repr

/-- Generated pre-reading material (`PrereadingResult` in `models.py`). -/
structure PrereadingResult where
  jargon : List JargonEntry
  prerequisites : List PrerequisiteEntry
  difficulty_level : DifficultyLevel
  estimated_read_time_minutes : Int
  key_concepts : List String
deriving DecidableEq, Repr

/-- One row of the `paper_prereading` table, keyed by (paper, field). -/
structure PrereadingRow where
  paper_id : Nat
  field_id : Nat
  material : PrereadingResult
deriving DecidableEq, Repr

/-- Result of generating all three summaries (`SummariesResult` in `models.py`). -/
structure SummariesResult where
  grade5 : String
  middle : String
  high : String
deriving DecidableEq, Repr

/-- Per-field outcome of the pipeline (`FieldIngestResult` in `models.py`). -/
structure FieldIngestResult where
  field_slug : String
  success : Bool
  paper_id : Option Nat := none
  arxiv_id : Option String := none
  error : Option String := none
deriving DecidableEq, Repr

/-- An audit tag recorded for every mutating store operation, used to
express frame properties ("zero writes", "no full-text write"). -/
inductive WriteOp where
  | upsertPaper (arxiv_id : String)
  | fullText (paper_id : Nat)
  | dailyPaper (date : String) (field_id : Nat) (paper_id : Nat)
  | summary (paper_id : Nat) (field_id : Nat) (level : ReadingLevel)
  | quiz (paper_id : Nat) (field_id : Nat)
  | prereading (paper_id : Nat) (field_id : Nat)
deriving DecidableEq, Repr

/-- `true` exactly on full-text write tags. -/
def WriteOp.isFullText : WriteOp → Bool
  | .fullText _ => true
  | _ => false

/-- The durable state owned by the idempotency store (the Supabase
tables the pipeline touches), plus the `writes` audit trail. -/
structure Store where
  papers : List Paper
  nextPaperId : Nat
  dailyPapers : List DailyPaper
  summaries : List SummaryRow
  quizzes : List QuizRow
  prereadings : List PrereadingRow
  writes : List WriteOp
deriving DecidableEq, Repr

/-! ## arXiv service (`arxiv_service.py`) -/

/-- `ArxivService.filter_unused_papers`: keep the papers whose
`arxiv_id` is not among the used ids (Python builds `set(used_arxiv_ids)`
and filters with `not in`; list membership is the same predicate). -/
def filter_unused_papers (papers : List ArxivPaper) (used_arxiv_ids : List String) :
    List ArxivPaper :=
  papers.filter (fun paper => !(used_arxiv_ids.contains paper.arxiv_id))

/-- `ArxivService.select_newest_paper`: `None` on an empty list,
otherwise Python's `max(papers, key=lambda p: p.published_at)`, which
scans left to right and replaces the current element only on a strictly
greater key — so the first element with the maximal timestamp wins. -/
def select_newest_paper (papers : List ArxivPaper) : Option ArxivPaper :=
  match papers with
  | [] => none
  | h :: t =>
      some (t.foldl
        (fun acc p => if acc.published_at < p.published_at then p else acc) h)

/-! ## Supabase client (`supabase_client.py`) -/

/-- `SupabaseClient.get_daily_paper`: the unique row for (field, date),
if any. -/
def get_daily_paper (s : Store) (field_id : Nat) (date : String) : Option DailyPaper :=
  s.dailyPapers.find? (fun r => r.field_id == field_id && r.date == date)

/-- `SupabaseClient.get_used_paper_arxiv_ids`: the arXiv ids of papers
joined from this field's daily assignments (assignments whose paper row
is missing are skipped, as the Python `if item.get("papers")` does). -/
def get_used_paper_arxiv_ids (s : Store) (field_id : Nat) : List String :=
  (s.dailyPapers.filter (fun r => r.field_id == field_id)).filterMap
    (fun r => (s.papers.find? (fun p => p.id == r.paper_id)).map (fun p => p.arxiv_id))

/-- Number of summary rows stored for (paper, field). -/
def countSummaries (s : Store) (paper_id field_id : Nat) : Nat :=
  (s.summaries.filter (fun r => r.paper_id == paper_id && r.field_id == field_id)).length

/-- `SupabaseClient.summaries_exist`: counts the summary rows for
(paper, field) and reports `count >= 3`; if the underlying query raises
(`queryFails = true`), the `except` branch returns `False`. -/
def summaries_exist (s : Store) (paper_id field_id : Nat) (queryFails : Bool) : Bool :=
  if queryFails then false
  else countSummaries s paper_id field_id ≥ 3

/-- `SupabaseClient.quiz_exists`: counts quiz rows for (paper, field)
and reports `count > 0`; on a query failure the `except` branch returns
`False`. -/
def quiz_exists (s : Store) (paper_id field_id : Nat) (queryFails : Bool) : Bool :=
  if queryFails then false
  else (s.quizzes.filter (fun r => r.paper_id == paper_id && r.field_id == field_id)).length > 0

/-- `SupabaseClient.prereading_exists`: counts pre-reading rows for
(paper, field) and reports `count > 0`; on a query failure the `except`
branch returns `False`. -/
def prereading_exists (s : Store) (paper_id field_id : Nat) (queryFails : Bool) : Bool :=
  if queryFails then false
  else (s.prereadings.filter (fun r => r.paper_id == paper_id && r.field_id == field_id)).length > 0

/-- The column values passed to `upsert_paper` (the `paper_data` dict
built at `paper_service.py` step 4; `full_text` is not among them). -/
structure PaperData where
  arxiv_id : String
  title : String
  abstract : String
  authors_json : List String
  categories : List String
  pdf_url : String
  published_at : Int
deriving DecidableEq, Repr

/-- `SupabaseClient.upsert_paper` with `on_conflict="arxiv_id"`: if a row
with the same `arxiv_id` exists, its listed columns are updated in place
(`id` and `full_text` are untouched) and the merged row is returned;
otherwise a fresh row (with `full_text = none`) is inserted. -/
def upsert_paper (s : Store) (pd : PaperData) : Paper × Store :=
  match s.papers.find? (fun p => p.arxiv_id == pd.arxiv_id) with
  | some existing =>
      let updated : Paper :=
        { existing with
          title := pd.title
          abstract := pd.abstract
          authors_json := pd.authors_json
          categories := pd.categories
          pdf_url := pd.pdf_url
          published_at := pd.published_at }
      (updated,
        { s with
          papers := s.papers.map (fun p => if p.arxiv_id == pd.arxiv_id then updated else p)
          writes := WriteOp.upsertPaper pd.arxiv_id :: s.writes })
  | none =>
      let newPaper : Paper :=
        { id := s.nextPaperId
          arxiv_id := pd.arxiv_id
          title := pd.title
          abstract := pd.abstract
          full_text := none
          authors_json := pd.authors_json
          categories := pd.categories
          pdf_url := pd.pdf_url
          published_at := pd.published_at }
      (newPaper,
        { s with
          papers := s.papers ++ [newPaper]
          nextPaperId := s.nextPaperId + 1
          writes := WriteOp.upsertPaper pd.arxiv_id :: s.writes })

/-- `SupabaseClient.update_paper_full_text`. -/
def update_paper_full_text (s : Store) (paper_id : Nat) (full_text : String) : Store :=
  { s with
    papers := s.papers.map
      (fun p => if p.id == paper_id then { p with full_text := some full_text } else p)
    writes := WriteOp.fullText paper_id :: s.writes }

/-- `SupabaseClient.create_daily_paper` (plain insert; the caller guards
against an existing row). -/
def create_daily_paper (s : Store) (date : String) (field_id paper_id : Nat) : Store :=
  { s with
    dailyPapers := s.dailyPapers ++ [{ date := date, field_id := field_id, paper_id := paper_id }]
    writes := WriteOp.dailyPaper date field_id paper_id :: s.writes }

/-- `SupabaseClient.create_paper_summary`, an upsert keyed by
(paper, field, level). -/
def create_paper_summary (s : Store) (paper_id field_id : Nat) (level : ReadingLevel)
    (summary_text : String) : Store :=
  let keyed := fun (r : SummaryRow) =>
    r.paper_id == paper_id && r.field_id == field_id && r.level == level
  let row : SummaryRow :=
    { paper_id := paper_id, field_id := field_id, level := level, summary_text := summary_text }
  { s with
    summaries :=
      if s.summaries.any keyed then
        s.summaries.map (fun r => if keyed r then row else r)
      else
        s.summaries ++ [row]
    writes := WriteOp.summary paper_id field_id level :: s.writes }

/-- `SupabaseClient.create_paper_quiz`, an upsert keyed by (paper, field). -/
def create_paper_quiz (s : Store) (paper_id field_id : Nat) (quiz : QuizData) : Store :=
  let keyed := fun (r : QuizRow) => r.paper_id == paper_id && r.field_id == field_id
  let row : QuizRow := { paper_id := paper_id, field_id := field_id, quiz_json := quiz }
  { s with
    quizzes :=
      if s.quizzes.any keyed then s.quizzes.map (fun r => if keyed r then row else r)
      else s.quizzes ++ [row]
    writes := WriteOp.quiz paper_id field_id :: s.writes }

/-- `SupabaseClient.create_paper_prereading`, an upsert keyed by
(paper, field). -/
def create_paper_prereading (s : Store) (paper_id field_id : Nat)
    (material : PrereadingResult) : Store :=
  let keyed := fun (r : PrereadingRow) => r.paper_id == paper_id && r.field_id == field_id
  let row : PrereadingRow := { paper_id := paper_id, field_id := field_id, material := material }
  { s with
    prereadings :=
      if s.prereadings.any keyed then s.prereadings.map (fun r => if keyed r then row else r)
      else s.prereadings ++ [row]
    writes := WriteOp.prereading paper_id field_id :: s.writes }

/-! ## LLM service (`llm_service.py`) -/

/-- The provider's quiz response after `json.loads`, as the shapes the
validation code in `LLMService.generate_quiz` distinguishes: empty
content, unparseable JSON, a JSON object without a `questions` list, or
a list of raw (unvalidated) questions. -/
inductive ProviderQuizResponse where
  | emptyContent
  | invalidJson
  | noQuestionsList
  | questions (qs : List QuizQuestion)
deriving DecidableEq, Repr

/-- The per-question validation loop of `LLMService.generate_quiz`:
a question whose `options` list does not have exactly 4 entries raises,
as does the pydantic `QuizQuestion` constraint `0 <= correct_index <= 3`;
the first violation aborts the whole loop. -/
def validate_quiz_questions : List QuizQuestion → Except String (List QuizQuestion)
  | [] => .ok []
  | q :: rest =>
      if q.options.length ≠ 4 then
        .error "Question must have exactly 4 options"
      else if ¬(0 ≤ q.correct_index ∧ q.correct_index ≤ 3) then
        .error "correct_index out of range"
      else
        match validate_quiz_questions rest with
        | .error e => .error e
        | .ok qs => .ok (q :: qs)

/-- `LLMService.generate_quiz`, applied to the provider's response: any
raised exception is an `Except.error`; otherwise the validated questions
are wrapped into a `QuizData`.  Note the code never checks that the
`questions` list is non-empty. -/
def generate_quiz (resp : ProviderQuizResponse) : Except String QuizData :=
  match resp with
  | .emptyContent => .error "Empty response from OpenAI"
  | .invalidJson => .error "JSON decode error"
  | .noQuestionsList => .error "Invalid quiz structure: missing questions array"
  | .questions qs =>
      match validate_quiz_questions qs with
      | .error e => .error e
      | .ok validated => .ok { questions := validated }

/-! ## Ingestion orchestrator (`paper_service.py`) -/

/-- Decidable equality for `Except` values (needed to evaluate concrete
runs of the pipeline by `decide`). -/
def exceptDecEq {ε α : Type} [DecidableEq ε] [DecidableEq α] :
    DecidableEq (Except ε α) := fun a b =>
  match a, b with
  | .ok x, .ok y =>
      if h : x = y then .isTrue (by rw [h]) else .isFalse (by intro hc; cases hc; exact h rfl)
  | .error x, .error y =>
      if h : x = y then .isTrue (by rw [h]) else .isFalse (by intro hc; cases hc; exact h rfl)
  | .ok _, .error _ => .isFalse (by intro hc; cases hc)
  | .error _, .ok _ => .isFalse (by intro hc; cases hc)

instance {ε α : Type} [DecidableEq ε] [DecidableEq α] : DecidableEq (Except ε α) :=
  exceptDecEq

/-- The outcomes the external world would produce during one run:
the arXiv feed fetch, PDF text extraction, and the three LLM
generations; an `Except.error` is a raised exception.  The three
`…CheckFails` flags model the underlying store query of the
corresponding existence check raising. -/
structure Env where
  feed : Except String (List ArxivPaper)
  extract : Except String String
  llmSummaries : Except String SummariesResult
  llmQuiz : Except String QuizData
  llmPrereading : Except String PrereadingResult
  sumCheckFails : Bool := false
  quizCheckFails : Bool := false
  preCheckFails : Bool := false
deriving DecidableEq, Repr

/-- Python's `str.strip()`: remove leading and trailing whitespace. -/
def pyStrip (s : String) : String :=
  ⟨((s.data.dropWhile Char.isWhitespace).reverse.dropWhile Char.isWhitespace).reverse⟩

/-- Python truthiness of `Optional[str]`: `None` and `""` are falsy. -/
def truthyOptStr : Option String → Bool
  | none => false
  | some t => !(t == "")

/-- The `paper_data` dict built in step 4 of
`PaperService.ingest_paper_for_field` from the selected candidate. -/
def paper_data_of (selected_paper : ArxivPaper) : PaperData :=
  { arxiv_id := selected_paper.arxiv_id
    title := selected_paper.title
    abstract := selected_paper.abstract
    authors_json := selected_paper.authors
    categories := selected_paper.categories
    pdf_url := selected_paper.pdf_url
    published_at := selected_paper.published_at }

/-- Step 4.5 of `PaperService.ingest_paper_for_field`: PDF extraction
inside `try/except`.  On success with text whose stripped length
exceeds 100 the text is persisted and set on the in-memory paper; any
exception, and any shorter text, leaves both untouched (abstract-only
mode). -/
def pdf_extraction_step (extract : Except String String) (db_paper : Paper)
    (s : Store) : Paper × Store :=
  match extract with
  | .ok full_text =>
      if !(full_text == "") && (pyStrip full_text).length > 100 then
        ({ db_paper with full_text := some full_text },
          update_paper_full_text s db_paper.id full_text)
      else (db_paper, s)
  | .error _ => (db_paper, s)

/-- Step 5.5 of `PaperService.ingest_paper_for_field`: pre-reading
generation inside `try/except`, gated on no existing pre-reading and a
truthy `full_text`; a generation failure is caught and leaves the store
unchanged. -/
def prereading_step (llmPrereading : Except String PrereadingResult)
    (preCheckFails : Bool) (db_paper : Paper) (field_id : Nat) (s : Store) : Store :=
  let has_prereading := prereading_exists s db_paper.id field_id preCheckFails
  if !has_prereading && truthyOptStr db_paper.full_text then
    match llmPrereading with
    | .ok prereading => create_paper_prereading s db_paper.id field_id prereading
    | .error _ => s
  else s

/-- Step 6 of `PaperService.ingest_paper_for_field`: if the summaries
for (paper, field) are incomplete, generate all three levels
(`generate_all_summaries`) and persist each level with its own upsert;
a generation failure escapes (`Except.error`) with no summary written. -/
def summaries_step (llmSummaries : Except String SummariesResult)
    (sumCheckFails : Bool) (paper_id field_id : Nat) (s : Store) :
    Except String Store :=
  let has_summaries := summaries_exist s paper_id field_id sumCheckFails
  if has_summaries then .ok s
  else
    match llmSummaries with
    | .error e => .error e
    | .ok summaries =>
        let s := create_paper_summary s paper_id field_id .grade5 summaries.grade5
        let s := create_paper_summary s paper_id field_id .middle summaries.middle
        let s := create_paper_summary s paper_id field_id .high summaries.high
        .ok s

/-- Step 7 of `PaperService.ingest_paper_for_field`: if no quiz exists
for (paper, field), generate and persist one; a generation failure
escapes (`Except.error`) with no quiz written. -/
def quiz_step (llmQuiz : Except String QuizData) (quizCheckFails : Bool)
    (paper_id field_id : Nat) (s : Store) : Except String Store :=
  let has_quiz := quiz_exists s paper_id field_id quizCheckFails
  if has_quiz then .ok s
  else
    match llmQuiz with
    | .error e => .error e
    | .ok quiz => .ok (create_paper_quiz s paper_id field_id quiz)

/-- Step 5 of `PaperService.ingest_paper_for_field`: create the daily
assignment only when step 1 found none. -/
def daily_paper_step (existing_daily_paper : Option DailyPaper) (date : String)
    (field_id paper_id : Nat) (s : Store) : Store :=
  match existing_daily_paper with
  | none => create_daily_paper s date field_id paper_id
  | some _ => s

/-- Steps 4–7 of `PaperService.ingest_paper_for_field` (from
`db.upsert_paper` through the final success result), given the selected
paper and the assignment found in step 1 (if any).  Returns the body's
outcome (`Except.error` = an exception escaping to the field-level
handler) and the store as mutated so far. -/
def process_selected_paper (field : AcademicField) (date : String) (env : Env)
    (s : Store) (existing_daily_paper : Option DailyPaper) (selected_paper : ArxivPaper) :
    Except String FieldIngestResult × Store :=
  -- Step 4: Upsert paper to database
  let res := upsert_paper s (paper_data_of selected_paper)
  let db_paper := res.1
  let s := res.2
  -- Step 4.5: PDF extraction
  let res := pdf_extraction_step env.extract db_paper s
  let db_paper := res.1
  let s := res.2
  -- Step 5: Create daily paper entry (if not exists)
  let s := daily_paper_step existing_daily_paper date field.id db_paper.id s
  -- Step 5.5: Generate pre-reading materials (if full text available)
  let s := prereading_step env.llmPrereading env.preCheckFails db_paper field.id s
  -- Step 6: Check and generate summaries
  match summaries_step env.llmSummaries env.sumCheckFails db_paper.id field.id s with
  | .error e => (.error e, s)
  | .ok s =>
      -- Step 7: Check and generate quiz
      match quiz_step env.llmQuiz env.quizCheckFails db_paper.id field.id s with
      | .error e => (.error e, s)
      | .ok s =>
          (.ok { field_slug := field.slug
                 success := true
                 paper_id := some db_paper.id
                 arxiv_id := some db_paper.arxiv_id }, s)

/-- Steps 1–3 of `PaperService.ingest_paper_for_field` after the
assignment lookup: fetch candidates from arXiv, fail on an empty feed,
filter out used papers (falling back to the unfiltered list when the
filter empties it), select the newest, and hand over to the remaining
steps. -/
def fetch_and_process (field : AcademicField) (date : String) (env : Env)
    (s : Store) (existing_daily_paper : Option DailyPaper) :
    Except String FieldIngestResult × Store :=
  -- Step 1: Fetch papers from arXiv (an exception escapes to the handler)
  match env.feed with
  | .error e => (.error e, s)
  | .ok arxiv_papers =>
      if arxiv_papers.isEmpty then
        (.ok { field_slug := field.slug
               success := false
               error := some "No papers found on arXiv" }, s)
      else
        -- Step 2: Filter out already used papers
        let used_ids := get_used_paper_arxiv_ids s field.id
        let unused_papers := filter_unused_papers arxiv_papers used_ids
        let unused_papers := if unused_papers.isEmpty then arxiv_papers else unused_papers
        -- Step 3: Select the newest paper
        match select_newest_paper unused_papers with
        | none =>
            (.ok { field_slug := field.slug
                   success := false
                   error := some "Could not select a paper" }, s)
        | some selected_paper =>
            process_selected_paper field date env s existing_daily_paper selected_paper

/-- The body of the `try` block of `PaperService.ingest_paper_for_field`:
look up the daily assignment; if it exists and all three artifact kinds
are present, short-circuit with success; otherwise run the fetch /
select / generate steps. -/
def ingest_body (field : AcademicField) (date : String) (env : Env) (s : Store) :
    Except String FieldIngestResult × Store :=
  match get_daily_paper s field.id date with
  | some existing_daily_paper =>
      let has_summaries :=
        summaries_exist s existing_daily_paper.paper_id field.id env.sumCheckFails
      let has_quiz := quiz_exists s existing_daily_paper.paper_id field.id env.quizCheckFails
      let has_prereading :=
        prereading_exists s existing_daily_paper.paper_id field.id env.preCheckFails
      if has_summaries && has_quiz && has_prereading then
        (.ok { field_slug := field.slug
               success := true
               paper_id := some existing_daily_paper.paper_id }, s)
      else
        fetch_and_process field date env s (some existing_daily_paper)
  | none => fetch_and_process field date env s none

/-- `PaperService.ingest_paper_for_field`: the body wrapped in the
`except Exception` handler, which turns any escaped exception into a
failure result carrying the exception's message. -/
def ingest_paper_for_field (field : AcademicField) (date : String) (env : Env)
    (s : Store) : FieldIngestResult × Store :=
  match ingest_body field date env s with
  | (.ok result, s) => (result, s)
  | (.error e, s) =>
      ({ field_slug := field.slug, success := false, error := some e }, s)

/-- `PaperService.ingest_daily_papers` over an already-loaded field
catalog: process the fields sequentially, collecting one
`FieldIngestResult` per field (the inter-field sleep has no observable
effect in this model). -/
def ingest_daily_papers (fields : List AcademicField) (date : String) (env : Env)
    (s : Store) : List FieldIngestResult × Store :=
  match fields with
  | [] => ([], s)
  | field :: rest =>
      let res := ingest_paper_for_field field date env s
      let rest_res := ingest_daily_papers rest date env res.2
      (res.1 :: rest_res.1, rest_res.2)

/-! ## Frame predicate and concrete scenario values -/

/-- No write in `s2` beyond those already in `s1` is a full-text write. -/
def NoNewFullText (s1 s2 : Store) : Prop :=
  ∀ w ∈ s2.writes, w ∈ s1.writes ∨ w.isFullText = false

/-- A sample field ("ml"). -/
def fieldML : AcademicField := ⟨1, "ml", "Machine Learning", "cat:cs.LG"⟩

/-- A stored paper already bound by a daily assignment. -/
def assignedPaper : Paper := ⟨10, "1111.0001", "Old title", "absX", none, [], [], "urlX", 1⟩

/-- A store after a crash: the assignment for ("ml", 2025-01-01) binds
`assignedPaper`, but no artifact of any kind exists yet. -/
def crashStore : Store := ⟨[assignedPaper], 11, [⟨"2025-01-01", 1, 10⟩], [], [], [], []⟩

/-- A fresh feed candidate, different from the assigned paper. -/
def candidateY : ArxivPaper := ⟨"2222.0002", "New title", "absY", ["a"], ["cs.LG"], 5, "urlY"⟩

/-- A minimal pre-reading payload. -/
def basicPrereading : PrereadingResult := ⟨[], [], .beginner, 5, []⟩

/-- A world where the feed returns only `candidateY`, PDF extraction
fails, and all three generations succeed. -/
def resumeEnv : Env :=
  ⟨.ok [candidateY], .error "download failed", .ok ⟨"s5", "sm", "sh"⟩,
    .ok ⟨[]⟩, .ok basicPrereading, false, false, false⟩

/-- A stored paper that the feed will return again (same arXiv id). -/
def mergedPaper : Paper := ⟨10, "3333.0003", "T", "A", none, [], [], "url3", 2⟩

/-- A store holding `mergedPaper` with exactly one summary level
(grade5) already persisted and no assignment: a crash mid-loop. -/
def incompleteStore : Store :=
  ⟨[mergedPaper], 11, [], [⟨10, 1, .grade5, "old grade5"⟩], [], [], []⟩

/-- The feed candidate whose arXiv id matches `mergedPaper`. -/
def candidateZ : ArxivPaper := ⟨"3333.0003", "T2", "A2", [], [], 9, "url3"⟩

/-- A world where the feed returns only `candidateZ`, PDF extraction
fails, and all three generations succeed. -/
def freshEnv : Env :=
  ⟨.ok [candidateZ], .error "no pdf", .ok ⟨"s5", "sm", "sh"⟩,
    .ok ⟨[]⟩, .ok basicPrereading, false, false, false⟩

/-- A fully populated store for ("ml", 2025-01-01): assignment plus all
three artifact kinds for the assigned paper. -/
def fullStore : Store :=
  ⟨[assignedPaper], 11, [⟨"2025-01-01", 1, 10⟩],
    [⟨10, 1, .grade5, "a"⟩, ⟨10, 1, .middle, "b"⟩, ⟨10, 1, .high, "c"⟩],
    [⟨10, 1, ⟨[]⟩⟩], [⟨10, 1, basicPrereading⟩], []⟩

/-- A world where every external call fails. -/
def downEnv : Env :=
  ⟨.error "boom", .error "x", .error "y", .error "z", .error "w", false, false, false⟩

/-- A candidate carrying only an id and a timestamp. -/
def tsPaper (arxiv_id : String) (ts : Int) : ArxivPaper := ⟨arxiv_id, "", "", [], [], ts, ""⟩

/-- A feed candidate whose arXiv id is already used by `crashStore`'s
assignment. -/
def usedCandidate : ArxivPaper := ⟨"1111.0001", "t", "a", [], [], 3, "url"⟩

/-- A world where the feed returns only `usedCandidate`. -/
def fallbackEnv : Env :=
  ⟨.ok [usedCandidate], .error "down", .ok ⟨"s5", "sm", "sh"⟩,
    .ok ⟨[]⟩, .ok basicPrereading, false, false, false⟩

/-- A well-formed four-option quiz question. -/
def goodQuestion : QuizQuestion := ⟨"q", ["a", "b", "c", "d"], 0, "because"⟩

/-! ## Store-operation frame lemmas -/

@[simp] theorem upsert_paper_summaries (s : Store) (pd : PaperData) :
    ((upsert_paper s pd).2).summaries = s.summaries := by
  unfold upsert_paper; split <;> rfl

@[simp] theorem upsert_paper_quizzes (s : Store) (pd : PaperData) :
    ((upsert_paper s pd).2).quizzes = s.quizzes := by
  unfold upsert_paper; split <;> rfl

@[simp] theorem upsert_paper_prereadings (s : Store) (pd : PaperData) :
    ((upsert_paper s pd).2).prereadings = s.prereadings := by
  unfold upsert_paper; split <;> rfl

@[simp] theorem upsert_paper_writes (s : Store) (pd : PaperData) :
    ((upsert_paper s pd).2).writes = WriteOp.upsertPaper pd.arxiv_id :: s.writes := by
  unfold upsert_paper; split <;> rfl

@[simp] theorem update_full_text_summaries (s : Store) (pid : Nat) (t : String) :
    (update_paper_full_text s pid t).summaries = s.summaries := rfl

@[simp] theorem update_full_text_writes (s : Store) (pid : Nat) (t : String) :
    (update_paper_full_text s pid t).writes = WriteOp.fullText pid :: s.writes := rfl

@[simp] theorem create_daily_paper_summaries (s : Store) (d : String) (fid pid : Nat) :
    (create_daily_paper s d fid pid).summaries = s.summaries := rfl

@[simp] theorem create_daily_paper_writes (s : Store) (d : String) (fid pid : Nat) :
    (create_daily_paper s d fid pid).writes = WriteOp.dailyPaper d fid pid :: s.writes := rfl

@[simp] theorem create_prereading_summaries (s : Store) (pid fid : Nat) (m : PrereadingResult) :
    (create_paper_prereading s pid fid m).summaries = s.summaries := rfl

@[simp] theorem create_prereading_writes (s : Store) (pid fid : Nat) (m : PrereadingResult) :
    (create_paper_prereading s pid fid m).writes = WriteOp.prereading pid fid :: s.writes := rfl

@[simp] theorem create_summary_writes (s : Store) (pid fid : Nat) (l : ReadingLevel) (t : String) :
    (create_paper_summary s pid fid l t).writes = WriteOp.summary pid fid l :: s.writes := rfl

@[simp] theorem create_quiz_writes (s : Store) (pid fid : Nat) (q : QuizData) :
    (create_paper_quiz s pid fid q).writes = WriteOp.quiz pid fid :: s.writes := rfl

@[simp] theorem create_quiz_summaries (s : Store) (pid fid : Nat) (q : QuizData) :
    (create_paper_quiz s pid fid q).summaries = s.summaries := rfl

/-! ## C7: filtering used papers -/

/-- C7: For all candidate lists C and used-id lists U,
`filter_unused_papers C U` contains no candidate whose identifier is in
U, and is a sublist of C: every element of the result appears in C and
the relative order of C is preserved. -/
theorem filter_unused_papers_spec (papers : List ArxivPaper) (used : List String) :
    (filter_unused_papers papers used).Sublist papers ∧
    ∀ p ∈ filter_unused_papers papers used, p.arxiv_id ∉ used := by
  refine ⟨List.filter_sublist papers, ?_⟩
  intro p hp
  simp only [filter_unused_papers, List.mem_filter, Bool.not_eq_true'] at hp
  simpa using hp.2

/-- Witness for C7 at a concrete input: the candidate that survives the
filter indeed has an identifier outside the used set. -/
theorem filter_unused_papers_spec_witness :
    (tsPaper "keep" 1).arxiv_id ∉ ["drop"] :=
  (filter_unused_papers_spec [tsPaper "drop" 2, tsPaper "keep" 1] ["drop"]).2
    (tsPaper "keep" 1) (by decide)

/-! ## C8: newest-paper selection -/

/-- The left fold implementing Python's `max(..., key=...)`: the result
splits the traversed list into a strict-smaller prefix, the first
maximal element, and a no-greater suffix. -/
theorem newest_fold_split (t : List ArxivPaper) (h : ArxivPaper) :
    ∃ l1 l2,
      h :: t = l1 ++ (t.foldl
          (fun acc p => if acc.published_at < p.published_at then p else acc) h) :: l2 ∧
      (∀ q ∈ l1, q.published_at <
        (t.foldl (fun acc p => if acc.published_at < p.published_at then p else acc)
          h).published_at) ∧
      (∀ q ∈ l2, q.published_at ≤
        (t.foldl (fun acc p => if acc.published_at < p.published_at then p else acc)
          h).published_at) := by
  induction t generalizing h with
  | nil => exact ⟨[], [], rfl, by simp, by simp⟩
  | cons a t ih =>
    simp only [List.foldl_cons]
    by_cases hc : h.published_at < a.published_at
    · simp only [if_pos hc]
      obtain ⟨l1, l2, heq, h1, h2⟩ := ih a
      generalize hR : List.foldl
        (fun acc p => if acc.published_at < p.published_at then p else acc) a t = r
        at heq h1 h2 ⊢
      refine ⟨h :: l1, l2, ?_, ?_, h2⟩
      · rw [List.cons_append, ← heq]
      · intro q hq
        rcases List.mem_cons.mp hq with rfl | hq
        · rcases l1 with _ | ⟨b, l1t⟩
          · simp only [List.nil_append, List.cons.injEq] at heq
            rw [← heq.1]; exact hc
          · simp only [List.cons_append, List.cons.injEq] at heq
            have hmem : a ∈ b :: l1t := by
              rw [← heq.1]; exact List.mem_cons_self a l1t
            exact lt_trans hc (h1 a hmem)
        · exact h1 q hq
    · simp only [if_neg hc]
      have hle : a.published_at ≤ h.published_at := le_of_not_lt hc
      obtain ⟨l1, l2, heq, h1, h2⟩ := ih h
      generalize hR : List.foldl
        (fun acc p => if acc.published_at < p.published_at then p else acc) h t = r
        at heq h1 h2 ⊢
      rcases l1 with _ | ⟨b, l1t⟩
      · simp only [List.nil_append, List.cons.injEq] at heq
        obtain ⟨hhr, htl2⟩ := heq
        refine ⟨[], a :: l2, ?_, by simp, ?_⟩
        · rw [List.nil_append, htl2, hhr]
        · intro q hq
          rcases List.mem_cons.mp hq with rfl | hq
          · rw [← hhr]; exact hle
          · exact h2 q hq
      · simp only [List.cons_append, List.cons.injEq] at heq
        obtain ⟨hb, hteq⟩ := heq
        refine ⟨h :: a :: l1t, l2, ?_, ?_, h2⟩
        · rw [List.cons_append, List.cons_append, hteq]
        · have hhb : h.published_at < r.published_at := by
            rw [hb]; exact h1 b (List.mem_cons_self b l1t)
          intro q hq
          rcases List.mem_cons.mp hq with rfl | hq
          · exact hhb
          · rcases List.mem_cons.mp hq with rfl | hq
            · exact lt_of_le_of_lt hle hhb
            · exact h1 q (List.mem_cons_of_mem b hq)

/-- C8: `select_newest_paper` returns `none` exactly on the empty list;
otherwise it returns an element of the list with the maximum publication
timestamp, and every element strictly before it in input order has a
strictly smaller timestamp (ties at the maximum resolve to the first
such element).  As a pure function it is deterministic: equal inputs
give equal results. -/
theorem select_newest_paper_spec (papers : List ArxivPaper) :
    (select_newest_paper papers = none ↔ papers = []) ∧
    ∀ p, select_newest_paper papers = some p →
      (∀ q ∈ papers, q.published_at ≤ p.published_at) ∧
      ∃ l1 l2, papers = l1 ++ p :: l2 ∧
        (∀ q ∈ l1, q.published_at < p.published_at) ∧
        (∀ q ∈ l2, q.published_at ≤ p.published_at) := by
  cases papers with
  | nil => exact ⟨by simp [select_newest_paper], by intro p hp; cases hp⟩
  | cons h t =>
    refine ⟨by simp [select_newest_paper], ?_⟩
    intro p hp
    simp only [select_newest_paper, Option.some.injEq] at hp
    obtain ⟨l1, l2, heq, h1, h2⟩ := newest_fold_split t h
    rw [hp] at heq h1 h2
    refine ⟨?_, l1, l2, heq, h1, h2⟩
    intro q hq
    rw [heq] at hq
    rcases List.mem_append.mp hq with hq | hq
    · exact le_of_lt (h1 q hq)
    · rcases List.mem_cons.mp hq with hq | hq
      · rw [hq]
      · exact h2 q hq

/-- Witness for C8 at a concrete input with a tie at the maximum:
selecting from timestamps [5, 7, 7] returns the first paper with
timestamp 7, which splits the list as required. -/
theorem select_newest_paper_spec_witness :
    (∀ q ∈ [tsPaper "a" 5, tsPaper "b" 7, tsPaper "c" 7],
      q.published_at ≤ (tsPaper "b" 7).published_at) ∧
    ∃ l1 l2, [tsPaper "a" 5, tsPaper "b" 7, tsPaper "c" 7] = l1 ++ tsPaper "b" 7 :: l2 ∧
      (∀ q ∈ l1, q.published_at < (tsPaper "b" 7).published_at) ∧
      (∀ q ∈ l2, q.published_at ≤ (tsPaper "b" 7).published_at) :=
  (select_newest_paper_spec [tsPaper "a" 5, tsPaper "b" 7, tsPaper "c" 7]).2
    (tsPaper "b" 7) (by decide)

/-! ## C10: existence checks fail closed to "absent" -/

/-- C10: when the underlying store query fails, each of the three
artifact existence checks returns `false` (the `except` branch) instead
of raising, whatever the store holds — so a store error during an
idempotency check reads as "artifact absent", and the orchestrator's
generation stages, seeing `false`, regenerate and rewrite the artifact
(final two conjuncts: with a failing check, the summaries and quiz
stages unconditionally write). -/
theorem existence_checks_fail_closed (s : Store) (paper_id field_id : Nat) :
    summaries_exist s paper_id field_id true = false ∧
    quiz_exists s paper_id field_id true = false ∧
    prereading_exists s paper_id field_id true = false ∧
    (∀ quiz : QuizData, quiz_step (.ok quiz) true paper_id field_id s =
      .ok (create_paper_quiz s paper_id field_id quiz)) ∧
    (∀ sums : SummariesResult, summaries_step (.ok sums) true paper_id field_id s =
      .ok (create_paper_summary
            (create_paper_summary
              (create_paper_summary s paper_id field_id .grade5 sums.grade5)
              paper_id field_id .middle sums.middle)
            paper_id field_id .high sums.high)) := by
  refine ⟨rfl, rfl, rfl, fun quiz => ?_, fun sums => ?_⟩
  · unfold quiz_step quiz_exists
    simp
  · unfold summaries_step summaries_exist
    simp

/-! ## C4: quiz validation -/

/-- The validation loop accepts a question list exactly when every
question has four options and an in-range correct index, and the
accepted output is the input list unchanged. -/
theorem validate_quiz_questions_spec (qs : List QuizQuestion) :
    ((∃ out, validate_quiz_questions qs = .ok out) ↔
      ∀ q ∈ qs, q.options.length = 4 ∧ 0 ≤ q.correct_index ∧ q.correct_index ≤ 3) ∧
    ∀ out, validate_quiz_questions qs = .ok out → out = qs := by
  induction qs with
  | nil =>
    refine ⟨⟨fun _ => by simp, fun _ => ⟨[], rfl⟩⟩, ?_⟩
    intro out hout
    simpa [validate_quiz_questions] using hout.symm
  | cons q rest ih =>
    constructor
    · constructor
      · rintro ⟨out, hout⟩
        unfold validate_quiz_questions at hout
        by_cases h4 : q.options.length ≠ 4
        · rw [if_pos h4] at hout; cases hout
        · rw [if_neg h4] at hout
          by_cases hci : ¬(0 ≤ q.correct_index ∧ q.correct_index ≤ 3)
          · rw [if_pos hci] at hout; cases hout
          · rw [if_neg hci] at hout
            push_neg at h4 hci
            intro p hp
            rcases List.mem_cons.mp hp with rfl | hp
            · exact ⟨h4, hci⟩
            · rcases hrest : validate_quiz_questions rest with e | outs
              · rw [hrest] at hout; cases hout
              · exact (ih.1.mp ⟨outs, hrest⟩) p hp
      · intro hall
        have hq := hall q (List.mem_cons_self q rest)
        obtain ⟨outs, houts⟩ :=
          ih.1.mpr (fun p hp => hall p (List.mem_cons_of_mem q hp))
        refine ⟨q :: outs, ?_⟩
        unfold validate_quiz_questions
        rw [if_neg (not_not_intro hq.1), if_neg (not_not_intro hq.2), houts]
    · intro out hout
      unfold validate_quiz_questions at hout
      by_cases h4 : q.options.length ≠ 4
      · rw [if_pos h4] at hout; cases hout
      · rw [if_neg h4] at hout
        by_cases hci : ¬(0 ≤ q.correct_index ∧ q.correct_index ≤ 3)
        · rw [if_pos hci] at hout; cases hout
        · rw [if_neg hci] at hout
          rcases hrest : validate_quiz_questions rest with e | outs
          · rw [hrest] at hout; cases hout
          · rw [hrest] at hout
            cases hout
            rw [ih.2 outs hrest]

/-- C4 (amended): `generate_quiz` accepts a parsed provider response
exactly when every question has exactly four options and an in-range
correct index — any violation rejects the whole quiz by raising, so no
partial quiz is returned — and an accepted quiz carries the question
list unchanged.  The code does not check that the question count is
non-zero: an empty question list is accepted (see the counterexample
`generate_quiz_empty_accepted`). -/
theorem generate_quiz_spec (qs : List QuizQuestion) :
    ((∃ quiz, generate_quiz (.questions qs) = .ok quiz) ↔
      ∀ q ∈ qs, q.options.length = 4 ∧ 0 ≤ q.correct_index ∧ q.correct_index ≤ 3) ∧
    ∀ quiz, generate_quiz (.questions qs) = .ok quiz → quiz.questions = qs := by
  have hdef : generate_quiz (.questions qs) =
      match validate_quiz_questions qs with
      | .error e => .error e
      | .ok validated => .ok { questions := validated } := rfl
  constructor
  · constructor
    · rintro ⟨quiz, hq⟩
      rcases hv : validate_quiz_questions qs with e | outs
      · simp only [hdef, hv] at hq
        cases hq
      · exact (validate_quiz_questions_spec qs).1.mp ⟨outs, hv⟩
    · intro hall
      obtain ⟨outs, houts⟩ := (validate_quiz_questions_spec qs).1.mpr hall
      exact ⟨⟨outs⟩, by simp only [hdef, houts]⟩
  · intro quiz hq
    rcases hv : validate_quiz_questions qs with e | outs
    · simp only [hdef, hv] at hq
      cases hq
    · simp only [hdef, hv] at hq
      cases hq
      simpa using (validate_quiz_questions_spec qs).2 outs hv

/-- C4 counterexample: a provider response with zero questions is
accepted (`Except.ok` with an empty quiz), not rejected by raising, so
`generate_quiz` does not validate that the question count is non-zero. -/
theorem generate_quiz_empty_accepted :
    generate_quiz (.questions []) = .ok { questions := [] } := rfl

/-! ## C3: complete assignment short-circuits with zero writes -/

/-- C3: if a DailyAssignment exists for (field, date) and all three
artifact existence checks report presence for the assigned paper, then
`ingest_paper_for_field` returns success carrying the assigned paper's
id and leaves the store completely unchanged (in particular, zero
writes and — as the result is the same for every `Env` — no feed fetch
and no generation call is consumed). -/
theorem short_circuit_no_writes (field : AcademicField) (date : String) (env : Env)
    (s : Store) (dp : DailyPaper)
    (hdp : get_daily_paper s field.id date = some dp)
    (hs : summaries_exist s dp.paper_id field.id env.sumCheckFails = true)
    (hq : quiz_exists s dp.paper_id field.id env.quizCheckFails = true)
    (hp : prereading_exists s dp.paper_id field.id env.preCheckFails = true) :
    ingest_paper_for_field field date env s =
      ({ field_slug := field.slug, success := true, paper_id := some dp.paper_id }, s) := by
  unfold ingest_paper_for_field ingest_body
  rw [hdp]
  simp [hs, hq, hp]

/-- Witness for C3: on the fully populated store, the second run for
("ml", 2025-01-01) returns success with the assigned paper id 10 and
does not touch the store — even though every external call would fail. -/
theorem short_circuit_no_writes_witness :
    ingest_paper_for_field fieldML "2025-01-01" downEnv fullStore =
      ({ field_slug := "ml", success := true, paper_id := some 10 }, fullStore) :=
  short_circuit_no_writes fieldML "2025-01-01" downEnv fullStore
    ⟨"2025-01-01", 1, 10⟩ (by decide) (by decide) (by decide) (by decide)

/-! ## C5: the daily run always completes, one result per field -/

/-- Every successful body outcome carries the field's slug. -/
theorem process_selected_paper_slug (field : AcademicField) (date : String) (env : Env)
    (s : Store) (ex : Option DailyPaper) (sel : ArxivPaper) (r : FieldIngestResult)
    (s2 : Store)
    (h : process_selected_paper field date env s ex sel = (.ok r, s2)) :
    r.field_slug = field.slug := by
  unfold process_selected_paper at h
  dsimp only at h
  split at h
  · simp only [Prod.mk.injEq] at h
    exact absurd h.1 (by simp)
  · split at h
    · simp only [Prod.mk.injEq] at h
      exact absurd h.1 (by simp)
    · simp only [Prod.mk.injEq, Except.ok.injEq] at h
      rw [← h.1]

/-- Every successful outcome of the fetch/select/generate steps carries
the field's slug. -/
theorem fetch_and_process_slug (field : AcademicField) (date : String) (env : Env)
    (s : Store) (ex : Option DailyPaper) (r : FieldIngestResult) (s2 : Store)
    (h : fetch_and_process field date env s ex = (.ok r, s2)) :
    r.field_slug = field.slug := by
  unfold fetch_and_process at h
  split at h
  · simp only [Prod.mk.injEq] at h
    exact absurd h.1 (by simp)
  · split at h
    · simp only [Prod.mk.injEq, Except.ok.injEq] at h
      rw [← h.1]
    · dsimp only at h
      split at h
      · simp only [Prod.mk.injEq, Except.ok.injEq] at h
        rw [← h.1]
      · exact process_selected_paper_slug field date env _ ex _ r s2 h

/-- Every successful body outcome carries the field's slug. -/
theorem ingest_body_slug (field : AcademicField) (date : String) (env : Env)
    (s : Store) (r : FieldIngestResult) (s2 : Store)
    (h : ingest_body field date env s = (.ok r, s2)) :
    r.field_slug = field.slug := by
  unfold ingest_body at h
  split at h
  · dsimp only at h
    split at h
    · simp only [Prod.mk.injEq, Except.ok.injEq] at h
      rw [← h.1]
    · exact fetch_and_process_slug field date env s _ r s2 h
  · exact fetch_and_process_slug field date env s _ r s2 h

/-- `ingest_paper_for_field` reports the processed field's slug in
every outcome. -/
theorem ingest_result_slug (field : AcademicField) (date : String) (env : Env)
    (s : Store) :
    (ingest_paper_for_field field date env s).1.field_slug = field.slug := by
  unfold ingest_paper_for_field
  rcases hb : ingest_body field date env s with ⟨res, s2⟩
  cases res with
  | error e => rfl
  | ok r => exact ingest_body_slug field date env s r s2 hb

/-- The run produces exactly one result per field. -/
theorem ingest_daily_papers_len (fields : List AcademicField) (date : String)
    (env : Env) : ∀ s, (ingest_daily_papers fields date env s).1.length = fields.length := by
  induction fields with
  | nil => intro s; rfl
  | cons f rest ih =>
    intro s
    simp only [ingest_daily_papers, List.length_cons, ih]

/-- Each result in the run's list carries the slug of the field at the
same position. -/
theorem ingest_daily_papers_slugs (fields : List AcademicField) (date : String)
    (env : Env) :
    ∀ s i (h1 : i < (ingest_daily_papers fields date env s).1.length)
      (h2 : i < fields.length),
      ((ingest_daily_papers fields date env s).1.get ⟨i, h1⟩).field_slug
        = (fields.get ⟨i, h2⟩).slug := by
  induction fields with
  | nil =>
    intro s i h1 h2
    exact absurd h2 (Nat.not_lt_zero i)
  | cons f rest ih =>
    intro s i h1 h2
    cases i with
    | zero => exact ingest_result_slug f date env s
    | succ n =>
      exact ih (ingest_paper_for_field f date env s).2 n
        (by simpa [ingest_daily_papers] using h1) (Nat.lt_of_succ_lt_succ h2)

/-- C5: for every field catalog, date, world and starting store, the
daily run returns a complete result list: exactly one result per field,
each carrying its field's slug — and any error escaping a field's body
is captured as that field's failure result with the error's message
(the run itself is a total function, so it never raises). -/
theorem ingest_daily_papers_total (fields : List AcademicField) (date : String)
    (env : Env) (s : Store) :
    (ingest_daily_papers fields date env s).1.length = fields.length ∧
    (∀ i (h1 : i < (ingest_daily_papers fields date env s).1.length)
      (h2 : i < fields.length),
      ((ingest_daily_papers fields date env s).1.get ⟨i, h1⟩).field_slug
        = (fields.get ⟨i, h2⟩).slug) ∧
    (∀ (field : AcademicField) (e : String) (s2 : Store) (s0 : Store),
      ingest_body field date env s0 = (.error e, s2) →
      ingest_paper_for_field field date env s0 =
        ({ field_slug := field.slug, success := false, error := some e }, s2)) := by
  refine ⟨ingest_daily_papers_len fields date env s,
    ingest_daily_papers_slugs fields date env s, ?_⟩
  intro field e s2 s0 h
  unfold ingest_paper_for_field
  rw [h]

/-! ## C6: fallback to the unfiltered candidate set -/

/-- C6: with no assignment yet for (field, date), if the feed returned
C and filtering C against the store's used ids yields the empty list,
then: when C itself is empty the field fails with the "no papers"
outcome, and when C is non-empty the orchestrator falls back to
selecting the newest paper from the unfiltered C and proceeds with it —
it never blocks on full exhaustion. -/
theorem fallback_to_unfiltered (field : AcademicField) (date : String) (env : Env)
    (s : Store) (C : List ArxivPaper)
    (h0 : get_daily_paper s field.id date = none)
    (hfeed : env.feed = .ok C)
    (hfilter : filter_unused_papers C (get_used_paper_arxiv_ids s field.id) = []) :
    (C = [] → ingest_paper_for_field field date env s =
      ({ field_slug := field.slug, success := false,
         error := some "No papers found on arXiv" }, s)) ∧
    (C ≠ [] → ∃ sel, select_newest_paper C = some sel ∧
      ingest_body field date env s = process_selected_paper field date env s none sel) := by
  have hbody : ingest_body field date env s = fetch_and_process field date env s none := by
    unfold ingest_body
    rw [h0]
  constructor
  · rintro rfl
    unfold ingest_paper_for_field
    rw [hbody]
    unfold fetch_and_process
    rw [hfeed]
    rfl
  · intro hC
    obtain ⟨h, t, rfl⟩ := List.exists_cons_of_ne_nil hC
    refine ⟨_, rfl, ?_⟩
    rw [hbody]
    unfold fetch_and_process
    rw [hfeed]
    simp only [List.isEmpty_cons, Bool.false_eq_true, if_false, hfilter,
      List.isEmpty_nil, if_true]
    rfl

/-- Witness for C6: with `crashStore` on a fresh date, the only fetched
candidate is already used, the filter empties the set, and the run
falls back to selecting that candidate from the unfiltered feed. -/
theorem fallback_to_unfiltered_witness :
    ∃ sel, select_newest_paper [usedCandidate] = some sel ∧
      ingest_body fieldML "2025-01-02" fallbackEnv crashStore =
        process_selected_paper fieldML "2025-01-02" fallbackEnv crashStore none sel :=
  (fallback_to_unfiltered fieldML "2025-01-02" fallbackEnv crashStore [usedCandidate]
    (by decide) rfl (by decide)).2 (by decide)

/-! ## C9: extraction failure and short text are both abstract-only -/

/-- A raised extraction exception leaves paper and store untouched. -/
theorem pdf_extraction_step_error (e : String) (db_paper : Paper) (s : Store) :
    pdf_extraction_step (.error e) db_paper s = (db_paper, s) := rfl

/-- Extracted text at or below the threshold leaves paper and store
untouched. -/
theorem pdf_extraction_step_short (txt : String) (db_paper : Paper) (s : Store)
    (h : (pyStrip txt).length ≤ 100) :
    pdf_extraction_step (.ok txt) db_paper s = (db_paper, s) := by
  unfold pdf_extraction_step
  simp [Nat.not_lt.mpr h]

theorem nnft_refl (s : Store) : NoNewFullText s s := fun _ hw => .inl hw

theorem nnft_trans {a b c : Store} (h1 : NoNewFullText a b) (h2 : NoNewFullText b c) :
    NoNewFullText a c := fun w hw =>
  match h2 w hw with
  | .inl hb => h1 w hb
  | .inr hf => .inr hf

/-- Prepending any non-full-text write preserves the frame property. -/
theorem nnft_cons {s s2 : Store} {rest : List WriteOp} {tag : WriteOp}
    (hw : s2.writes = tag :: rest) (htag : tag.isFullText = false)
    (hrest : ∀ w ∈ rest, w ∈ s.writes ∨ w.isFullText = false) :
    NoNewFullText s s2 := by
  intro w hmem
  rw [hw] at hmem
  rcases List.mem_cons.mp hmem with rfl | hmem
  · exact .inr htag
  · exact hrest w hmem

theorem nnft_upsert (s : Store) (pd : PaperData) :
    NoNewFullText s (upsert_paper s pd).2 :=
  nnft_cons (upsert_paper_writes s pd) rfl (fun _ hw => .inl hw)

theorem nnft_daily_paper_step (ex : Option DailyPaper) (date : String)
    (fid pid : Nat) (s : Store) :
    NoNewFullText s (daily_paper_step ex date fid pid s) := by
  cases ex with
  | none => exact nnft_cons (create_daily_paper_writes s date fid pid) rfl (fun _ hw => .inl hw)
  | some _ => exact nnft_refl s

theorem nnft_prereading_step (llm : Except String PrereadingResult) (flag : Bool)
    (p : Paper) (fid : Nat) (s : Store) :
    NoNewFullText s (prereading_step llm flag p fid s) := by
  unfold prereading_step
  cases llm with
  | error e =>
    dsimp only
    split
    · exact nnft_refl s
    · exact nnft_refl s
  | ok pre =>
    dsimp only
    split
    · exact nnft_cons (create_prereading_writes s p.id fid pre) rfl (fun _ hw => .inl hw)
    · exact nnft_refl s

theorem nnft_summaries_step (llm : Except String SummariesResult) (flag : Bool)
    (pid fid : Nat) (s s2 : Store) (h : summaries_step llm flag pid fid s = .ok s2) :
    NoNewFullText s s2 := by
  unfold summaries_step at h
  dsimp only at h
  by_cases hex : summaries_exist s pid fid flag = true
  · rw [if_pos hex] at h
    cases h
    exact nnft_refl s
  · rw [if_neg hex] at h
    cases llm with
    | error e => cases h
    | ok sums =>
      dsimp only at h
      cases h
      refine nnft_cons (create_summary_writes _ pid fid .high sums.high) rfl ?_
      intro w hw
      rw [create_summary_writes] at hw
      rcases List.mem_cons.mp hw with rfl | hw
      · exact .inr rfl
      · rw [create_summary_writes] at hw
        rcases List.mem_cons.mp hw with rfl | hw
        · exact .inr rfl
        · exact .inl hw

theorem nnft_quiz_step (llm : Except String QuizData) (flag : Bool)
    (pid fid : Nat) (s s2 : Store) (h : quiz_step llm flag pid fid s = .ok s2) :
    NoNewFullText s s2 := by
  unfold quiz_step at h
  dsimp only at h
  by_cases hex : quiz_exists s pid fid flag = true
  · rw [if_pos hex] at h
    cases h
    exact nnft_refl s
  · rw [if_neg hex] at h
    cases llm with
    | error e => cases h
    | ok quiz =>
      dsimp only at h
      cases h
      exact nnft_cons (create_quiz_writes s pid fid quiz) rfl (fun _ hw => .inl hw)

/-- When the extraction step is a no-op (failure or short text), the
remaining pipeline steps never write full text. -/
theorem process_no_fulltext (field : AcademicField) (date : String) (env : Env)
    (s : Store) (ex : Option DailyPaper) (sel : ArxivPaper)
    (hpdf : ∀ (p : Paper) (st : Store), pdf_extraction_step env.extract p st = (p, st)) :
    NoNewFullText s (process_selected_paper field date env s ex sel).2 := by
  unfold process_selected_paper
  dsimp only
  rw [hpdf]
  dsimp only
  have h1 : NoNewFullText s
      (daily_paper_step ex date field.id (upsert_paper s (paper_data_of sel)).1.id
        (upsert_paper s (paper_data_of sel)).2) :=
    nnft_trans (nnft_upsert s (paper_data_of sel)) (nnft_daily_paper_step ex date _ _ _)
  have h2 : NoNewFullText s
      (prereading_step env.llmPrereading env.preCheckFails
        (upsert_paper s (paper_data_of sel)).1 field.id
        (daily_paper_step ex date field.id (upsert_paper s (paper_data_of sel)).1.id
          (upsert_paper s (paper_data_of sel)).2)) :=
    nnft_trans h1 (nnft_prereading_step _ _ _ _ _)
  rcases hs5 : summaries_step env.llmSummaries env.sumCheckFails
      (upsert_paper s (paper_data_of sel)).1.id field.id
      (prereading_step env.llmPrereading env.preCheckFails
        (upsert_paper s (paper_data_of sel)).1 field.id
        (daily_paper_step ex date field.id (upsert_paper s (paper_data_of sel)).1.id
          (upsert_paper s (paper_data_of sel)).2)) with e | s5
  · exact h2
  · dsimp only
    rcases hs6 : quiz_step env.llmQuiz env.quizCheckFails
        (upsert_paper s (paper_data_of sel)).1.id field.id s5 with e2 | s6
    · exact nnft_trans h2 (nnft_summaries_step _ _ _ _ _ _ hs5)
    · exact nnft_trans (nnft_trans h2 (nnft_summaries_step _ _ _ _ _ _ hs5))
        (nnft_quiz_step _ _ _ _ _ _ hs6)

/-- When the extraction step is a no-op, the fetch/select/generate
steps never write full text. -/
theorem fetch_no_fulltext (field : AcademicField) (date : String) (env : Env)
    (s : Store) (ex : Option DailyPaper)
    (hpdf : ∀ (p : Paper) (st : Store), pdf_extraction_step env.extract p st = (p, st)) :
    NoNewFullText s (fetch_and_process field date env s ex).2 := by
  unfold fetch_and_process
  split
  · exact nnft_refl s
  · split
    · exact nnft_refl s
    · dsimp only
      split
      · exact nnft_refl s
      · exact process_no_fulltext field date env s ex _ hpdf

/-- When the extraction step is a no-op, the whole per-field run never
writes full text. -/
theorem ingest_no_fulltext (field : AcademicField) (date : String) (env : Env)
    (s : Store)
    (hpdf : ∀ (p : Paper) (st : Store), pdf_extraction_step env.extract p st = (p, st)) :
    NoNewFullText s (ingest_paper_for_field field date env s).2 := by
  have hbody : NoNewFullText s (ingest_body field date env s).2 := by
    unfold ingest_body
    split
    · dsimp only
      split
      · exact nnft_refl s
      · exact fetch_no_fulltext field date env s _ hpdf
    · exact fetch_no_fulltext field date env s _ hpdf
  unfold ingest_paper_for_field
  rcases hb : ingest_body field date env s with ⟨res, s2⟩
  rw [hb] at hbody
  cases res with
  | error e => exact hbody
  | ok r => exact hbody

/-- Swapping a failed extraction for a short-text extraction changes
nothing in the remaining pipeline steps. -/
theorem process_extract_irrelevant (field : AcademicField) (date : String) (env : Env)
    (s : Store) (ex : Option DailyPaper) (sel : ArxivPaper) (e txt : String)
    (hlen : (pyStrip txt).length ≤ 100) :
    process_selected_paper field date { env with extract := .error e } s ex sel =
      process_selected_paper field date { env with extract := .ok txt } s ex sel := by
  unfold process_selected_paper
  dsimp only
  rw [pdf_extraction_step_error, pdf_extraction_step_short txt _ _ hlen]

/-- Swapping a failed extraction for a short-text extraction changes
nothing from the fetch step on. -/
theorem fetch_extract_irrelevant (field : AcademicField) (date : String) (env : Env)
    (s : Store) (ex : Option DailyPaper) (e txt : String)
    (hlen : (pyStrip txt).length ≤ 100) :
    fetch_and_process field date { env with extract := .error e } s ex =
      fetch_and_process field date { env with extract := .ok txt } s ex := by
  unfold fetch_and_process
  dsimp only
  cases env.feed with
  | error e2 => rfl
  | ok papers =>
    dsimp only
    split
    · rfl
    · split
      · rfl
      · exact process_extract_irrelevant field date env s ex _ e txt hlen

/-- C9: a document-extraction failure and extracted text at or below
the minimum-length threshold are treated identically: the per-field run
produces the same result and the same store in both cases (so neither
aborts the field's run), and in both cases no full-text write is
performed — full text is persisted only when the stripped text exceeds
the threshold. -/
theorem extraction_failure_abstract_only (field : AcademicField) (date : String)
    (env : Env) (s : Store) (e txt : String)
    (hlen : (pyStrip txt).length ≤ 100) :
    ingest_paper_for_field field date { env with extract := .error e } s =
      ingest_paper_for_field field date { env with extract := .ok txt } s ∧
    NoNewFullText s (ingest_paper_for_field field date { env with extract := .error e } s).2 ∧
    NoNewFullText s (ingest_paper_for_field field date { env with extract := .ok txt } s).2 := by
  have hbody : ingest_body field date { env with extract := .error e } s =
      ingest_body field date { env with extract := .ok txt } s := by
    unfold ingest_body
    dsimp only
    cases get_daily_paper s field.id date with
    | none => exact fetch_extract_irrelevant field date env s none e txt hlen
    | some dp =>
      dsimp only
      split
      · rfl
      · exact fetch_extract_irrelevant field date env s (some dp) e txt hlen
  have heq : ingest_paper_for_field field date { env with extract := .error e } s =
      ingest_paper_for_field field date { env with extract := .ok txt } s := by
    unfold ingest_paper_for_field
    rw [hbody]
  refine ⟨heq, ?_, ?_⟩
  · exact ingest_no_fulltext field date _ s (fun p st => rfl)
  · exact ingest_no_fulltext field date _ s
      (fun p st => pdf_extraction_step_short txt p st hlen)

/-- Witness for C9 at concrete inputs: on `crashStore`, a failed
download and a 5-character extraction give identical runs with no
full-text write. -/
theorem extraction_failure_abstract_only_witness :
    (ingest_paper_for_field fieldML "2025-01-01"
        { resumeEnv with extract := .error "download failed" } crashStore =
      ingest_paper_for_field fieldML "2025-01-01"
        { resumeEnv with extract := .ok "short" } crashStore) ∧
    NoNewFullText crashStore (ingest_paper_for_field fieldML "2025-01-01"
      { resumeEnv with extract := .error "download failed" } crashStore).2 ∧
    NoNewFullText crashStore (ingest_paper_for_field fieldML "2025-01-01"
      { resumeEnv with extract := .ok "short" } crashStore).2 :=
  extraction_failure_abstract_only fieldML "2025-01-01" resumeEnv crashStore
    "download failed" "short" (by decide)

/-! ## C2: incomplete summaries are regenerated wholesale -/

/-- After `create_paper_summary`, a row with the written key is present. -/
theorem summary_present_after_write (s : Store) (pid fid : Nat) (lvl : ReadingLevel)
    (txt : String) :
    ∃ r ∈ (create_paper_summary s pid fid lvl txt).summaries,
      r.paper_id = pid ∧ r.field_id = fid ∧ r.level = lvl := by
  unfold create_paper_summary
  dsimp only
  split
  · rename_i hany
    obtain ⟨r0, hr0, hk⟩ := List.any_eq_true.mp hany
    exact ⟨⟨pid, fid, lvl, txt⟩,
      List.mem_map.mpr ⟨r0, hr0, by rw [if_pos hk]⟩, rfl, rfl, rfl⟩
  · exact ⟨⟨pid, fid, lvl, txt⟩,
      List.mem_append_right _ (List.mem_singleton.mpr rfl), rfl, rfl, rfl⟩

/-- `create_paper_summary` never removes a (paper, field, level) key
that was present: replaced rows keep their key. -/
theorem summary_present_preserved (s : Store) (pid fid : Nat) (lvl : ReadingLevel)
    (txt : String) (pid0 fid0 : Nat) (lvl0 : ReadingLevel)
    (h : ∃ r ∈ s.summaries, r.paper_id = pid0 ∧ r.field_id = fid0 ∧ r.level = lvl0) :
    ∃ r ∈ (create_paper_summary s pid fid lvl txt).summaries,
      r.paper_id = pid0 ∧ r.field_id = fid0 ∧ r.level = lvl0 := by
  obtain ⟨r0, hr0, hp, hf, hl⟩ := h
  unfold create_paper_summary
  dsimp only
  split
  · by_cases hk : (r0.paper_id == pid && r0.field_id == fid && r0.level == lvl) = true
    · simp only [Bool.and_eq_true, beq_iff_eq] at hk
      refine ⟨⟨pid, fid, lvl, txt⟩,
        List.mem_map.mpr ⟨r0, hr0, by rw [if_pos (by simp [hk.1.1, hk.1.2, hk.2])]⟩,
        ?_, ?_, ?_⟩
      · rw [← hk.1.1]; exact hp
      · rw [← hk.1.2]; exact hf
      · rw [← hk.2]; exact hl
    · exact ⟨r0, List.mem_map.mpr ⟨r0, hr0, by rw [if_neg hk]⟩, hp, hf, hl⟩
  · exact ⟨r0, List.mem_append_left _ hr0, hp, hf, hl⟩

/-- A list containing three pairwise-distinct elements has length at
least three. -/
theorem three_mem_length {α : Type} [DecidableEq α] {l : List α} {a b c : α}
    (ha : a ∈ l) (hb : b ∈ l) (hc : c ∈ l)
    (hab : a ≠ b) (hac : a ≠ c) (hbc : b ≠ c) : 3 ≤ l.length := by
  have hsub : ({a, b, c} : Finset α) ⊆ l.toFinset := by
    intro x hx
    rw [List.mem_toFinset]
    rcases Finset.mem_insert.mp hx with rfl | hx
    · exact ha
    · rcases Finset.mem_insert.mp hx with rfl | hx
      · exact hb
      · rw [Finset.mem_singleton] at hx
        rw [hx]
        exact hc
  have hcard : ({a, b, c} : Finset α).card = 3 := by
    rw [Finset.card_insert_of_not_mem (by simp [hab, hac]),
      Finset.card_insert_of_not_mem (by simp [hbc]), Finset.card_singleton]
  calc 3 = ({a, b, c} : Finset α).card := hcard.symm
    _ ≤ l.toFinset.card := Finset.card_le_card hsub
    _ ≤ l.length := l.toFinset_card_le

/-- If all three reading levels are present for (paper, field), the
summary count is at least three. -/
theorem count_ge_three_of_levels (s : Store) (pid fid : Nat)
    (hg : ∃ r ∈ s.summaries, r.paper_id = pid ∧ r.field_id = fid ∧ r.level = .grade5)
    (hm : ∃ r ∈ s.summaries, r.paper_id = pid ∧ r.field_id = fid ∧ r.level = .middle)
    (hh : ∃ r ∈ s.summaries, r.paper_id = pid ∧ r.field_id = fid ∧ r.level = .high) :
    3 ≤ countSummaries s pid fid := by
  obtain ⟨rg, hrg, hg1, hg2, hg3⟩ := hg
  obtain ⟨rm, hrm, hm1, hm2, hm3⟩ := hm
  obtain ⟨rh, hrh, hh1, hh2, hh3⟩ := hh
  unfold countSummaries
  refine three_mem_length (a := rg) (b := rm) (c := rh) ?_ ?_ ?_ ?_ ?_ ?_
  · exact List.mem_filter.mpr ⟨hrg, by simp [hg1, hg2]⟩
  · exact List.mem_filter.mpr ⟨hrm, by simp [hm1, hm2]⟩
  · exact List.mem_filter.mpr ⟨hrh, by simp [hh1, hh2]⟩
  · intro hEq
    have := congrArg SummaryRow.level hEq
    rw [hg3, hm3] at this
    cases this
  · intro hEq
    have := congrArg SummaryRow.level hEq
    rw [hg3, hh3] at this
    cases this
  · intro hEq
    have := congrArg SummaryRow.level hEq
    rw [hm3, hh3] at this
    cases this

/-- C2 (amended): step 6 of the pipeline is all-or-nothing over the
summary count.  When fewer than three summary rows exist for
(paper, field) — even if some levels are already present — the stage
regenerates ALL THREE levels and persists each with its own upsert
(three summary writes, one per level), after which the summary set is
complete; it does not generate only the missing levels.  When three or
more rows exist, the stage writes nothing.  (The summaries are
requested from the generator as one batch, so a failure persists
nothing.) -/
theorem summaries_stage_regenerates_all (sums : SummariesResult) (pid fid : Nat)
    (s : Store) :
    (countSummaries s pid fid < 3 →
      summaries_step (.ok sums) false pid fid s =
        .ok (create_paper_summary (create_paper_summary (create_paper_summary
              s pid fid .grade5 sums.grade5) pid fid .middle sums.middle)
            pid fid .high sums.high) ∧
      (∀ level : ReadingLevel, WriteOp.summary pid fid level ∈
        (create_paper_summary (create_paper_summary (create_paper_summary
              s pid fid .grade5 sums.grade5) pid fid .middle sums.middle)
            pid fid .high sums.high).writes) ∧
      summaries_exist (create_paper_summary (create_paper_summary (create_paper_summary
              s pid fid .grade5 sums.grade5) pid fid .middle sums.middle)
            pid fid .high sums.high) pid fid false = true) ∧
    (3 ≤ countSummaries s pid fid →
      summaries_step (.ok sums) false pid fid s = .ok s) := by
  constructor
  · intro hlt
    have hex : summaries_exist s pid fid false = false := by
      unfold summaries_exist
      simp [Nat.not_le.mpr hlt]
    refine ⟨?_, ?_, ?_⟩
    · unfold summaries_step
      rw [hex]
      rfl
    · intro level
      cases level <;> simp [create_summary_writes]
    · have hg1 := summary_present_after_write s pid fid .grade5 sums.grade5
      have hg2 := summary_present_preserved
        (create_paper_summary s pid fid .grade5 sums.grade5)
        pid fid .middle sums.middle pid fid .grade5 hg1
      have hg3 := summary_present_preserved
        (create_paper_summary (create_paper_summary s pid fid .grade5 sums.grade5)
          pid fid .middle sums.middle)
        pid fid .high sums.high pid fid .grade5 hg2
      have hm1 := summary_present_after_write
        (create_paper_summary s pid fid .grade5 sums.grade5) pid fid .middle sums.middle
      have hm2 := summary_present_preserved
        (create_paper_summary (create_paper_summary s pid fid .grade5 sums.grade5)
          pid fid .middle sums.middle)
        pid fid .high sums.high pid fid .middle hm1
      have hh1 := summary_present_after_write
        (create_paper_summary (create_paper_summary s pid fid .grade5 sums.grade5)
          pid fid .middle sums.middle) pid fid .high sums.high
      have hcount := count_ge_three_of_levels _ pid fid hg3 hm2 hh1
      unfold summaries_exist
      simpa using hcount
  · intro hge
    have hex : summaries_exist s pid fid false = true := by
      unfold summaries_exist
      simpa using hge
    unfold summaries_step
    rw [hex]
    rfl

/-- C2 counterexample: on a store already holding the grade5 summary
for (paper 10, field 1) — so grade5 is not missing — with only the
middle and high levels absent, the run nevertheless regenerates and
re-persists the grade5 level: its write appears and its stored text is
replaced by the newly generated one. -/
theorem c2_regenerates_present_level :
    (∃ r ∈ incompleteStore.summaries,
      r.paper_id = 10 ∧ r.field_id = 1 ∧ r.level = .grade5 ∧ r.summary_text = "old grade5") ∧
    WriteOp.summary 10 1 .grade5 ∈
      (ingest_paper_for_field fieldML "2025-01-02" freshEnv incompleteStore).2.writes ∧
    (∃ r ∈ (ingest_paper_for_field fieldML "2025-01-02" freshEnv incompleteStore).2.summaries,
      r.paper_id = 10 ∧ r.field_id = 1 ∧ r.level = .grade5 ∧ r.summary_text = "s5") := by
  decide

/-! ## C1: resume with incomplete artifacts re-fetches and re-selects -/

/-- C1 (evaluation at the failing input): `crashStore` holds an
assignment binding paper 10 to ("ml", 2025-01-01) with no artifacts.
Re-running `ingest_paper_for_field` does NOT regenerate the missing
artifacts for the assigned paper 10: it consumes the feed again,
upserts the freshly fetched candidate as a new paper 11, generates and
persists summaries and a quiz for paper 11, returns success with
paper 11's id, and leaves the assigned paper 10 with no artifacts while
the assignment still points to it. -/
theorem resume_reselects_new_paper :
    get_daily_paper crashStore fieldML.id "2025-01-01" = some ⟨"2025-01-01", 1, 10⟩ ∧
    summaries_exist crashStore 10 1 false = false ∧
    (ingest_paper_for_field fieldML "2025-01-01" resumeEnv crashStore).1.success = true ∧
    (ingest_paper_for_field fieldML "2025-01-01" resumeEnv crashStore).1.paper_id = some 11 ∧
    WriteOp.upsertPaper "2222.0002" ∈
      (ingest_paper_for_field fieldML "2025-01-01" resumeEnv crashStore).2.writes ∧
    WriteOp.summary 11 1 .grade5 ∈
      (ingest_paper_for_field fieldML "2025-01-01" resumeEnv crashStore).2.writes ∧
    WriteOp.summary 11 1 .middle ∈
      (ingest_paper_for_field fieldML "2025-01-01" resumeEnv crashStore).2.writes ∧
    WriteOp.summary 11 1 .high ∈
      (ingest_paper_for_field fieldML "2025-01-01" resumeEnv crashStore).2.writes ∧
    WriteOp.summary 10 1 .grade5 ∉
      (ingest_paper_for_field fieldML "2025-01-01" resumeEnv crashStore).2.writes ∧
    WriteOp.summary 10 1 .middle ∉
      (ingest_paper_for_field fieldML "2025-01-01" resumeEnv crashStore).2.writes ∧
    WriteOp.summary 10 1 .high ∉
      (ingest_paper_for_field fieldML "2025-01-01" resumeEnv crashStore).2.writes ∧
    WriteOp.quiz 10 1 ∉
      (ingest_paper_for_field fieldML "2025-01-01" resumeEnv crashStore).2.writes ∧
    summaries_exist (ingest_paper_for_field fieldML "2025-01-01" resumeEnv crashStore).2
      10 1 false = false ∧
    get_daily_paper (ingest_paper_for_field fieldML "2025-01-01" resumeEnv crashStore).2
      fieldML.id "2025-01-01" = some ⟨"2025-01-01", 1, 10⟩ := by
  decide

end HelloMimir
